import Mathlib

/-!
Verification of the attendance check-in application (src/src/components/AttendanceApp.jsx).
The source file contains two ESPO-backed revisions of the component, separated by
document markers: the first full revision (called Rev1 here, the "first revision" of
the claims) and the latest revision (called Rev2 here, the "latest revision" of the
claims).  Shared pure logic (the action enumeration, the state derivation from a day
record, the allowed-action table) is identical in both revisions and is embedded once.
Asynchronous network calls are modelled by passing the responses of the remote
services explicitly as an environment value, and each submit run also reports the
list of network calls it performed, in order.
-/

namespace Attendance

/-- The four attendance actions: the values of the `type` radio selection
(`checkin | checkout | lunchStart | lunchEnd` in the source). -/
inductive ActionType
  | checkin
  | checkout
  | lunchStart
  | lunchEnd
deriving DecidableEq, Repr

/-- A day record as returned by the ESPO record store: the four optional timestamp
fields read by `computeLastActionFromRecord`, plus the record id used by
`espoUpdate`.  A field holds `some s`; JavaScript truthiness additionally treats
the empty string as absent, see `truthy`. -/
structure AttendanceRecord where
  id : String
  checkInAt : Option String := none
  lunchOutAt : Option String := none
  lunchInAt : Option String := none
  checkOutAt : Option String := none
deriving DecidableEq, Repr

/-- JavaScript truthiness of an optional string field: absent and the empty
string are falsy (`if (rec?.checkOutAt)` in the source). -/
def truthy : Option String → Bool
  | none => false
  | some s => decide (s ≠ "")

/-- Source function `computeLastActionFromRecord` (identical in both revisions): derives the last
completed action from which timestamp fields are present, precedence
checkOutAt, then lunchInAt, then lunchOutAt, then checkInAt. -/
def computeLastActionFromRecord : Option AttendanceRecord → Option ActionType
  | none => none
  | some rec =>
    if truthy rec.checkOutAt then some .checkout
    else if truthy rec.lunchInAt then some .lunchEnd
    else if truthy rec.lunchOutAt then some .lunchStart
    else if truthy rec.checkInAt then some .checkin
    else none

/-- The AttendanceState enumeration of the spec (spec section 3). -/
inductive AttendanceState
  | NotStarted
  | CheckedIn
  | OnLunch
  | LunchDone
  | Completed
deriving DecidableEq, Repr

/-- The correspondence between the `lastAction` value of the code and the
AttendanceState names of the spec. -/
def stateOfLastAction : Option ActionType → AttendanceState
  | none => .NotStarted
  | some .checkin => .CheckedIn
  | some .lunchStart => .OnLunch
  | some .lunchEnd => .LunchDone
  | some .checkout => .Completed

/-- The state derivation as worded by the spec (section 3): CheckOut-time present
gives Completed; else LunchEnd-time present gives LunchDone; else LunchStart-time
present gives OnLunch; else CheckIn-time present gives CheckedIn; else NotStarted.
Written from the words of the spec, to be compared with the source function. -/
def specStateOfRecord : Option AttendanceRecord → AttendanceState
  | none => .NotStarted
  | some rec =>
    if truthy rec.checkOutAt then .Completed
    else if truthy rec.lunchInAt then .LunchDone
    else if truthy rec.lunchOutAt then .OnLunch
    else if truthy rec.checkInAt then .CheckedIn
    else .NotStarted

/-- Source memo `allowedTypes` (identical in both revisions): the allowed next actions given
the selections and the resolved `lastAction`; empty when office or employee is
not selected (JavaScript falsiness of the empty string). -/
def allowedTypes (officeId employeeId : String) (lastAction : Option ActionType) :
    List ActionType :=
  if officeId = "" ∨ employeeId = "" then []
  else
    match lastAction with
    | none => [.checkin]
    | some .checkin => [.lunchStart, .checkout]
    | some .lunchStart => [.lunchEnd, .checkout]
    | some .lunchEnd => [.checkout]
    | some .checkout => []

/-- The reselect effect (identical in both revisions): when office and employee
are selected and the current `type` is not allowed, it is replaced by the first
allowed action, defaulting to checkin when the allowed list is empty. -/
def reselectType (officeId employeeId : String) (allowed : List ActionType)
    (ty : ActionType) : ActionType :=
  if officeId = "" ∨ employeeId = "" then ty
  else if ty ∈ allowed then ty
  else allowed.headD .checkin

/-- The timestamp field written for each action (`fieldByType` in Rev1,
`TYPE_META[type].timeField` in Rev2): checkin writes checkInAt, checkout writes
checkOutAt, lunchStart writes lunchOutAt, lunchEnd writes lunchInAt. -/
def getField (r : AttendanceRecord) : ActionType → Option String
  | .checkin => r.checkInAt
  | .checkout => r.checkOutAt
  | .lunchStart => r.lunchOutAt
  | .lunchEnd => r.lunchInAt

/-- Writing the timestamp field of an action, as the server does when it applies
a create or update payload whose `[timeField]` entry is set. -/
def setField (r : AttendanceRecord) : ActionType → String → AttendanceRecord
  | .checkin, v => { r with checkInAt := some v }
  | .checkout, v => { r with checkOutAt := some v }
  | .lunchStart, v => { r with lunchOutAt := some v }
  | .lunchEnd, v => { r with lunchInAt := some v }

/-- A record with no timestamps, as before the first creation of the day. -/
def blankRecord : AttendanceRecord := { id := "" }

/-- The day record after performing an action: a create (no existing record)
stores the timestamp of the action on a fresh record, an update stores it on the
existing record. -/
def stepRecord : Option AttendanceRecord → ActionType → String → Option AttendanceRecord
  | none, a, dt => some (setField blankRecord a dt)
  | some r, a, dt => some (setField r a dt)

/-- Precedence rank of an action, following the order of
`computeLastActionFromRecord`. -/
def rankA : ActionType → Nat
  | .checkin => 1
  | .lunchStart => 2
  | .lunchEnd => 3
  | .checkout => 4

/-- Precedence rank of a resolved state. -/
def rankOpt : Option ActionType → Nat
  | none => 0
  | some a => rankA a

/-- A legal run of one day: a sequence of actions, each allowed by
`allowedTypes` at the record state where it is performed, each with a nonempty
timestamp string, evolving the record by `stepRecord`. -/
inductive LegalRun (o e : String) :
    Option AttendanceRecord → List ActionType → Option AttendanceRecord → Prop
  | nil (r : Option AttendanceRecord) : LegalRun o e r [] r
  | cons (r : Option AttendanceRecord) (a : ActionType) (dt : String)
      (as : List ActionType) (r2 : Option AttendanceRecord)
      (ha : a ∈ allowedTypes o e (computeLastActionFromRecord r))
      (hdt : dt ≠ "")
      (htail : LegalRun o e (stepRecord r a dt) as r2) :
      LegalRun o e r (a :: as) r2

lemma rank_lt_of_mem_allowed {o e : String} {la : Option ActionType} {a : ActionType}
    (h : a ∈ allowedTypes o e la) : rankOpt la < rankA a := by
  unfold allowedTypes at h
  split at h
  · simp at h
  · cases la with
    | none => cases a <;> simp_all [rankOpt, rankA]
    | some a0 => cases a0 <;> cases a <;> simp_all [rankOpt, rankA]

lemma truthy_some_of_ne {s : String} (h : s ≠ "") : truthy (some s) = true := by
  simp [truthy, h]

lemma compute_some_eq (rec : AttendanceRecord) :
    computeLastActionFromRecord (some rec) =
      (if truthy rec.checkOutAt then some .checkout
       else if truthy rec.lunchInAt then some .lunchEnd
       else if truthy rec.lunchOutAt then some .lunchStart
       else if truthy rec.checkInAt then some .checkin
       else none) := rfl

lemma compute_eq_none_facts {rec : AttendanceRecord}
    (h : computeLastActionFromRecord (some rec) = none) :
    truthy rec.checkOutAt = false ∧ truthy rec.lunchInAt = false ∧
      truthy rec.lunchOutAt = false ∧ truthy rec.checkInAt = false := by
  rw [compute_some_eq] at h
  by_cases hco : truthy rec.checkOutAt <;>
    by_cases hli : truthy rec.lunchInAt <;>
    by_cases hlo : truthy rec.lunchOutAt <;>
    by_cases hci : truthy rec.checkInAt <;>
    simp [hco, hli, hlo, hci] at h ⊢

lemma compute_eq_checkin_facts {rec : AttendanceRecord}
    (h : computeLastActionFromRecord (some rec) = some .checkin) :
    truthy rec.checkOutAt = false ∧ truthy rec.lunchInAt = false ∧
      truthy rec.lunchOutAt = false := by
  rw [compute_some_eq] at h
  by_cases hco : truthy rec.checkOutAt <;>
    by_cases hli : truthy rec.lunchInAt <;>
    by_cases hlo : truthy rec.lunchOutAt <;>
    simp [hco, hli, hlo] at h ⊢

lemma compute_eq_lunchStart_facts {rec : AttendanceRecord}
    (h : computeLastActionFromRecord (some rec) = some .lunchStart) :
    truthy rec.checkOutAt = false ∧ truthy rec.lunchInAt = false := by
  rw [compute_some_eq] at h
  by_cases hco : truthy rec.checkOutAt <;>
    by_cases hli : truthy rec.lunchInAt <;>
    simp [hco, hli] at h ⊢

lemma mem_allowed_cases {o e : String} {la : Option ActionType} {a : ActionType}
    (h : a ∈ allowedTypes o e la) :
    (la = none ∧ a = .checkin) ∨
    (la = some .checkin ∧ (a = .lunchStart ∨ a = .checkout)) ∨
    (la = some .lunchStart ∧ (a = .lunchEnd ∨ a = .checkout)) ∨
    (la = some .lunchEnd ∧ a = .checkout) := by
  unfold allowedTypes at h
  split at h
  · simp at h
  · cases la with
    | none => simp_all
    | some a0 => cases a0 <;> simp_all

lemma state_after_step {o e : String} {r : Option AttendanceRecord} {a : ActionType}
    {dt : String} (ha : a ∈ allowedTypes o e (computeLastActionFromRecord r))
    (hdt : dt ≠ "") :
    computeLastActionFromRecord (stepRecord r a dt) = some a := by
  have htr := truthy_some_of_ne hdt
  rcases mem_allowed_cases ha with ⟨hla, haeq⟩ | ⟨hla, haeq⟩ | ⟨hla, haeq⟩ | ⟨hla, haeq⟩
  · -- from NotStarted only checkin; every field of the stepped record except
    -- checkInAt is the old non-truthy one
    subst haeq
    cases r with
    | none => simp [stepRecord, setField, blankRecord, compute_some_eq, truthy, htr, hdt]
    | some rec =>
      obtain ⟨h1, h2, h3, h4⟩ := compute_eq_none_facts hla
      simp [stepRecord, setField, compute_some_eq, h1, h2, h3, htr]
  · -- from CheckedIn: lunchStart or checkout
    cases r with
    | none => simp [computeLastActionFromRecord] at hla
    | some rec =>
      obtain ⟨h1, h2, h3⟩ := compute_eq_checkin_facts hla
      rcases haeq with haeq | haeq <;> subst haeq <;>
        simp [stepRecord, setField, compute_some_eq, h1, h2, htr]
  · -- from OnLunch: lunchEnd or checkout
    cases r with
    | none => simp [computeLastActionFromRecord] at hla
    | some rec =>
      obtain ⟨h1, h2⟩ := compute_eq_lunchStart_facts hla
      rcases haeq with haeq | haeq <;> subst haeq <;>
        simp [stepRecord, setField, compute_some_eq, h1, htr]
  · -- from LunchDone: checkout
    cases r with
    | none => simp [computeLastActionFromRecord] at hla
    | some rec =>
      subst haeq
      simp [stepRecord, setField, compute_some_eq, htr]

lemma legalRun_nodup_aux {o e : String} {r : Option AttendanceRecord}
    {acts : List ActionType} {r2 : Option AttendanceRecord}
    (h : LegalRun o e r acts r2) :
    acts.Nodup ∧ ∀ a ∈ acts, rankOpt (computeLastActionFromRecord r) < rankA a := by
  induction h with
  | nil r => simp
  | cons r a dt as r2 ha hdt htail ih =>
    have hstep := state_after_step ha hdt
    have hrank := rank_lt_of_mem_allowed ha
    obtain ⟨ihnd, ihranks⟩ := ih
    rw [hstep] at ihranks
    constructor
    · refine List.nodup_cons.mpr ⟨?_, ihnd⟩
      intro hmem
      have := ihranks a hmem
      simp [rankOpt] at this
    · intro b hb
      rcases List.mem_cons.mp hb with hb | hb
      · subst hb; exact hrank
      · exact lt_trans hrank (ihranks b hb)

/-! ## Trusted clock -/

/-- Zero padding to two digits, as Intl.DateTimeFormat 2-digit fields. -/
def pad2 (n : Nat) : String :=
  if n < 10 then "0" ++ toString n else toString n

/-- Zero padding to four digits for the year field. -/
def pad4 (n : Nat) : String :=
  if n < 10 then "000" ++ toString n
  else if n < 100 then "00" ++ toString n
  else if n < 1000 then "0" ++ toString n
  else toString n

/-- Model of `istDateTimeParts`: formatting an epoch-milliseconds instant in the
Asia/Kolkata zone (fixed offset UTC+05:30, no daylight saving) as the pair
("YYYY-MM-DD", "HH:mm:ss").  The civil-date conversion is the standard
days-to-Gregorian algorithm; the model is exact for nonnegative epochs. -/
def istDateTimeParts (epochMs : Int) : String × String :=
  let istMs := epochMs + 19800000
  let days := istMs.fdiv 86400000
  let msOfDay := (istMs.fmod 86400000).toNat
  let secOfDay := msOfDay / 1000
  let hh := secOfDay / 3600
  let mm := secOfDay % 3600 / 60
  let ss := secOfDay % 60
  let z := (days + 719468).toNat
  let era := z / 146097
  let doe := z % 146097
  let yoe := (doe - doe / 1460 + doe / 36524 - doe / 146096) / 365
  let doy := doe - (365 * yoe + yoe / 4 - yoe / 100)
  let mp := (5 * doy + 2) / 153
  let d := doy - (153 * mp + 2) / 5 + 1
  let m := if mp < 10 then mp + 3 else mp - 9
  let y := era * 400 + yoe + (if m ≤ 2 then 1 else 0)
  (pad4 y ++ "-" ++ pad2 m ++ "-" ++ pad2 d,
   pad2 hh ++ ":" ++ pad2 mm ++ ":" ++ pad2 ss)

/-- Rev1 TimeSync pair: server epoch and the performance.now mark at sync, both
null before the first successful sync.  Times are modelled in integer
milliseconds. -/
structure TimeSync1 where
  serverEpochMs : Option Int
  perfAtSync : Option Int
deriving DecidableEq, Repr

/-- Rev1 `getTrustedNow`: null unless both halves of the pair are set, otherwise
the synced server epoch advanced by the elapsed monotonic time. -/
def getTrustedNow1 (ts : TimeSync1) (perfNow : Int) : Option Int :=
  match ts.serverEpochMs, ts.perfAtSync with
  | some s, some p => some (s + (perfNow - p))
  | _, _ => none

/-- Rev1 clock component state: the TimeSync pair plus the isTimeReady flag. -/
structure ClockState1 where
  timeSync : TimeSync1
  isTimeReady : Bool
deriving DecidableEq, Repr

/-- The Rev1 clock state at mount: unsynced, not ready. -/
def initClock1 : ClockState1 := ⟨⟨none, none⟩, false⟩

/-- Rev1 `syncKolkataTime`: sets isTimeReady to false on entry, then walks the
providers (three rounds through all sources); `providerResults` lists the
round-trip-compensated result of each attempt in the order tried, `none` for a
failed attempt.  The first success replaces the pair atomically and sets ready;
if every attempt fails the pair is left as it was and ready stays false. -/
def syncKolkataTime1 (c : ClockState1) (providerResults : List (Option Int))
    (perfNow : Int) : ClockState1 :=
  match providerResults.findSome? (fun x => x) with
  | some ms => ⟨⟨some ms, some perfNow⟩, true⟩
  | none => ⟨c.timeSync, false⟩

/-- Rev2 TimeSync triple, with the isAuthoritative marker distinguishing a real
sync from a restored cache. -/
structure TimeSync2 where
  serverEpochMs : Option Int
  perfAtSync : Option Int
  isAuthoritative : Bool
deriving DecidableEq, Repr

/-- Rev2 `getTrustedNow` (same arithmetic as Rev1). -/
def getTrustedNow2 (ts : TimeSync2) (perfNow : Int) : Option Int :=
  match ts.serverEpochMs, ts.perfAtSync with
  | some s, some p => some (s + (perfNow - p))
  | _, _ => none

/-- Rev2 clock component state. -/
structure ClockState2 where
  timeSync : TimeSync2
  isTimeReady : Bool
deriving DecidableEq, Repr

/-- Rev2 `syncKolkataTimeFast`: walks the providers once (no isTimeReady reset on
entry); on the first success it replaces the pair, marks it authoritative, sets
ready and writes the cache (the second component of the result); if every
provider fails the state is left completely unchanged and nothing is cached. -/
def syncKolkataTimeFast2 (c : ClockState2) (providerResults : List (Option Int))
    (perfNow : Int) : ClockState2 × Option Int :=
  match providerResults.findSome? (fun x => x) with
  | some ms => (⟨⟨some ms, some perfNow, true⟩, true⟩, some ms)
  | none => (c, none)

/-- The persisted time cache (localStorage TIME_SYNC_CACHE_V1), already
validated by `readCachedTimeSync`. -/
structure TimeCache where
  serverEpochMs : Int
  savedAtMs : Int
deriving DecidableEq, Repr

/-- Helper `clamp` from Rev2: Math.max(min, Math.min(max, n)). -/
def intClamp (n lo hi : Int) : Int := max lo (min hi n)

/-- The outcome of the Rev2 mount-time initialization effect. -/
structure InitResult2 where
  timeSync : TimeSync2
  isTimeReady : Bool
  dateStr : String
  timeStr : String
deriving DecidableEq, Repr

/-- Rev2 mount effect (before any provider sync): renders the clock from the
device wall clock, marks time ready unconditionally, and, when a cached sync
exists, restores it corrected by the clamped device-clock elapsed time (marked
non-authoritative); with no cache the pair stays null. -/
def initTimeEffect2 (cache : Option TimeCache) (deviceNowMs perfNow : Int) :
    InitResult2 :=
  let rendered := istDateTimeParts deviceNowMs
  let ts : TimeSync2 :=
    match cache with
    | some c =>
      let elapsed := deviceNowMs - c.savedAtMs
      ⟨some (c.serverEpochMs + intClamp elapsed 0 86400000), some perfNow, false⟩
    | none => ⟨none, none, false⟩
  ⟨ts, true, rendered.1, rendered.2⟩

/-- Rev2 per-second clock tick: renders the trusted time when available and
otherwise falls back to rendering the device wall clock. -/
def tick2 (ts : TimeSync2) (perfNow deviceNowMs : Int) : String × String :=
  match getTrustedNow2 ts perfNow with
  | some t => istDateTimeParts t
  | none => istDateTimeParts deviceNowMs

/-- Rev1 per-second clock tick: renders the trusted time when available and
otherwise shows the "--" placeholders (no device fallback). -/
def tick1 (ts : TimeSync1) (perfNow : Int) : String × String :=
  match getTrustedNow1 ts perfNow with
  | some t => istDateTimeParts t
  | none => ("--", "--")

/-! ## Location tracker -/

/-- Location tracker state: the live fix and address, the freeze flag, and the
frozen snapshot (Rev1 and Rev2 are identical here). -/
structure LocState where
  lat : Option ℚ
  lng : Option ℚ
  address : String
  isLocationFrozen : Bool
  frozenLat : Option ℚ
  frozenLng : Option ℚ
  frozenAddress : String
deriving DecidableEq, Repr

/-- One `watchPosition` fix together with its (eventually applied)
reverse-geocode outcome: `some a` when the geocode succeeded with address `a`,
`none` when it failed (address cleared).  When the location is frozen the
callback skips every state write, so the whole state is unchanged. -/
def liveUpdate (s : LocState) (la ln : ℚ) (geocoded : Option String) : LocState :=
  if s.isLocationFrozen then s
  else { s with lat := some la, lng := some ln, address := geocoded.getD "" }

/-- Folding a list of live fixes over the state. -/
def applyLiveUpdates (s : LocState) (ups : List (ℚ × ℚ × Option String)) : LocState :=
  ups.foldl (fun st u => liveUpdate st u.1 u.2.1 u.2.2) s

/-- Source function `freezeLocationNow`: sets the freeze flag; when a live fix exists it is
copied verbatim into the frozen snapshot; otherwise a best-effort one-shot fix
(the `oneShot` argument, `none` when the one-shot also fails) is used. -/
def freezeLocationNow (s : LocState) (oneShot : Option (ℚ × ℚ × Option String)) :
    LocState :=
  let s1 := { s with isLocationFrozen := true }
  if s.lat ≠ none ∧ s.lng ≠ none then
    { s1 with frozenLat := s.lat, frozenLng := s.lng, frozenAddress := s.address }
  else
    match oneShot with
    | some (la, ln, geocoded) =>
      { s1 with frozenLat := some la, frozenLng := some ln,
                frozenAddress := geocoded.getD "" }
    | none => s1

/-- Office deselection: clears the freeze flag and the frozen snapshot. -/
def unfreezeLocation (s : LocState) : LocState :=
  { s with isLocationFrozen := false, frozenLat := none, frozenLng := none,
           frozenAddress := "" }

/-- The displayed (and submitted) coordinates: frozen when frozen, else live. -/
def displayLat (s : LocState) : Option ℚ :=
  if s.isLocationFrozen then s.frozenLat else s.lat

/-- The displayed longitude. -/
def displayLng (s : LocState) : Option ℚ :=
  if s.isLocationFrozen then s.frozenLng else s.lng

/-! ## Reverse-geocode request ordering -/

/-- The address-update slice of the tracker: `lastGeoReqRef` and the displayed
live address. -/
structure GeoState where
  lastGeoReq : Nat
  address : String
deriving DecidableEq, Repr

/-- Issuing a reverse-geocode request for a new fix: the request id (Date.now()
at issue time, strictly larger for a strictly later fix at the millisecond
granularity of the model) is stored in `lastGeoReqRef`. -/
def geoIssue (s : GeoState) (reqId : Nat) : GeoState :=
  { s with lastGeoReq := reqId }

/-- A reverse-geocode response arriving: discarded when its request id is no
longer the latest issued one, or when the location is frozen; otherwise the
address (empty on a failed geocode) is displayed. -/
def geoRespond (s : GeoState) (reqId : Nat) (result : Option String)
    (frozen : Bool) : GeoState :=
  if s.lastGeoReq ≠ reqId then s
  else if frozen then s
  else { s with address := result.getD "" }

/-! ## Submit models -/

/-- The captured selfie file (name and MIME type as used by the upload). -/
structure SelfieFile where
  name : String
  mime : String
deriving DecidableEq, Repr

/-- Model of JavaScript String.prototype.trim (and Lean String.trim): strips
leading and trailing whitespace, written on the character list so that it
reduces inside the kernel. -/
def jsTrim (s : String) : String :=
  ⟨((s.data.dropWhile Char.isWhitespace).reverse.dropWhile Char.isWhitespace).reverse⟩

/-- Model of JavaScript String.prototype.toLowerCase (and Lean String.toLower)
for the daykey, written on the character list so that it reduces inside the
kernel. -/
def jsToLower (s : String) : String := ⟨s.data.map Char.toLower⟩

/-- Rev1 upload result: attachment id and name. -/
structure Uploaded1 where
  id : String
  name : String
deriving DecidableEq, Repr

/-- Environment of one upload attempt: the outcome of reading the file to a
data URL, and the response of the attachment endpoint (raw id and name fields). -/
structure UploadEnv where
  fileRead : Except String String
  attachResponse : Except String (String × String)
  nowMs : Int
deriving Repr

/-- Rev1 `espoUploadSelfie`: fails when the attachment URL is not configured,
when the file read fails, when the endpoint call fails, or when the response
carries no id; on success returns the trimmed id and name. -/
def espoUploadSelfie1 (attachmentUrl : String) (f : SelfieFile) (env : UploadEnv) :
    Except String Uploaded1 :=
  if attachmentUrl = "" then .error "ESPO Attachment URL not available"
  else
    match env.fileRead with
    | .error e => .error e
    | .ok _ =>
      match env.attachResponse with
      | .error e => .error e
      | .ok (rid, rname) =>
        let payloadName := if f.name = "" then "selfie.jpg" else f.name
        let id := jsTrim rid
        let nm := jsTrim (if rname = "" then payloadName else rname)
        if id = "" then .error "Attachment upload failed: missing id"
        else .ok ⟨id, nm⟩

/-- Rev2 upload result: id, name, always the base64 data URL, and whether the
attachment endpoint was actually used. -/
structure Uploaded2 where
  id : String
  name : String
  dataUrl : String
  useAttachment : Bool
deriving DecidableEq, Repr

/-- Rev2 `espoUploadSelfie` (hybrid): only a failed file read propagates as an
error; a missing attachment URL, a failed endpoint call or a response without an
id all fall back to an inline base64 result with a generated id and
useAttachment set to false. -/
def espoUploadSelfie2 (attachmentUrl : String) (f : SelfieFile) (env : UploadEnv) :
    Except String Uploaded2 :=
  match env.fileRead with
  | .error e => .error e
  | .ok dataUrl =>
    let payloadName := if f.name = "" then "selfie.jpg" else f.name
    let fallback : Uploaded2 :=
      ⟨"selfie_" ++ toString env.nowMs, payloadName, dataUrl, false⟩
    if attachmentUrl = "" then .ok fallback
    else
      match env.attachResponse with
      | .error _ => .ok fallback
      | .ok (rid, rname) =>
        let id := jsTrim rid
        let nm := jsTrim (if rname = "" then payloadName else rname)
        if id = "" then .ok fallback
        else .ok ⟨id, nm, dataUrl, true⟩

/-- Rev1 record payload: the base fields built in `onSubmit` plus the optional
timestamp-field assignment and the create-only recordType marker. -/
structure Payload1 where
  name : String
  officeCode : String
  employeeName : String
  attendanceDate : String
  officeLat : ℚ
  officeLng : ℚ
  daykey : String
  notes : String
  selfieImageId : String
  selfieImageName : String
  timeFieldSet : Option (ActionType × String) := none
  recordType : Option String := none
deriving DecidableEq, Repr

/-- Rev2 record payload: attachment reference fields are present only when the
attachment endpoint was used, the base64 selfie data is always embedded. -/
structure Payload2 where
  name : String
  officeCode : String
  employeeName : String
  attendanceDate : String
  officeLat : ℚ
  officeLng : ℚ
  daykey : String
  notes : String
  attachIdField : Option (String × String) := none
  selfieData : String
  selfieDataName : String
  timeFieldSet : Option (ActionType × String) := none
  recordType : Option String := none
deriving DecidableEq, Repr

/-- A network call performed during a submit run, in order. -/
inductive NetCall (P : Type)
  | upload
  | find
  | create (p : P)
  | update (id : String) (p : P)
deriving DecidableEq, Repr

/-- The outcome of a submit run. -/
inductive SubmitOutcome (P : Type)
  | blocked (msg : String)
  | submitFailed (msg : String)
  | needCheckinFirst
  | alreadyDone
  | createdOk (p : P) (newLastAction : Option ActionType)
  | updatedOk (id : String) (p : P) (newLastAction : Option ActionType)
deriving DecidableEq, Repr

/-- Rev1 submit-time component state. -/
structure SubmitState1 where
  espoBaseUrl : String
  espoApiKey : String
  attachmentUrl : String
  officeId : String
  employeeId : String
  type : ActionType
  lastAction : Option ActionType
  isTimeReady : Bool
  displayLat : Option ℚ
  displayLng : Option ℚ
  displayAddress : String
  selfie : Option SelfieFile
  dateStr : String
  timeStr : String
deriving Repr

/-- Responses of the remote services consumed by one Rev1 submit run. -/
structure SubmitEnv1 where
  uploadEnv : UploadEnv
  findResult : Except String (Option AttendanceRecord)
  createResult : Except String AttendanceRecord
  updateResult : Except String Unit
  refetchResult : Except String (Option AttendanceRecord)
deriving Repr

/-- Rev1 client-side validation, in source order: configuration (base URL, API
key), then office, employee, allowed action, time ready, location present,
selfie present; returns the modal message of the first failing check. -/
def validate1 (s : SubmitState1) : Option String :=
  if s.espoBaseUrl = "" then some "ESPO base URL missing in .env"
  else if s.espoApiKey = "" then some "ESPO API key missing in .env"
  else if s.officeId = "" then some "Please select office."
  else if s.employeeId = "" then some "Please select employee."
  else if s.type ∉ allowedTypes s.officeId s.employeeId s.lastAction then
    some "This action is not allowed now."
  else if s.isTimeReady = false then some "Kolkata time is syncing. Wait 1–2 seconds."
  else if s.displayLat = none ∨ s.displayLng = none then some "Location not available."
  else if s.selfie = none then some "Please take selfie."
  else none

/-- The frozen date-time string submitted: `dateStr ++ " " ++ timeStr`. -/
def submittedDt (dateStr timeStr : String) : String := dateStr ++ " " ++ timeStr

/-- Rev1 `onSubmit`: validation first (no network call on failure), then selfie
upload, then the lookup of the record of the day, then create (checkin only) or
update guarded by the already-done check, with a re-fetch after an update.  Any
thrown error surfaces as a submitFailed modal. -/
def onSubmit1 (s : SubmitState1) (env : SubmitEnv1) :
    SubmitOutcome Payload1 × List (NetCall Payload1) :=
  match validate1 s with
  | some m => (.blocked m, [])
  | none =>
    match s.selfie with
    | none => (.blocked "Please take selfie.", [])
    | some f =>
      match espoUploadSelfie1 s.attachmentUrl f env.uploadEnv with
      | .error e => (.submitFailed e, [.upload])
      | .ok up =>
        match env.findResult with
        | .error e => (.submitFailed e, [.upload, .find])
        | .ok existing =>
          let dt := submittedDt s.dateStr s.timeStr
          let base : Payload1 :=
            { name := s.employeeId, officeCode := s.officeId,
              employeeName := s.employeeId, attendanceDate := s.dateStr,
              officeLat := s.displayLat.getD 0, officeLng := s.displayLng.getD 0,
              daykey := jsToLower (s.dateStr ++ "__" ++ s.employeeId),
              notes := s.displayAddress,
              selfieImageId := up.id, selfieImageName := up.name }
          match existing with
          | none =>
            if s.type ≠ .checkin then (.needCheckinFirst, [.upload, .find])
            else
              let p := { base with timeFieldSet := some (ActionType.checkin, dt),
                                   recordType := some "Attendance" }
              match env.createResult with
              | .error e => (.submitFailed e, [.upload, .find, .create p])
              | .ok created =>
                (.createdOk p
                   (some ((computeLastActionFromRecord (some created)).getD .checkin)),
                 [.upload, .find, .create p])
          | some r =>
            if truthy (getField r s.type) then (.alreadyDone, [.upload, .find])
            else
              let p := { base with timeFieldSet := some (s.type, dt) }
              match env.updateResult with
              | .error e => (.submitFailed e, [.upload, .find, .update r.id p])
              | .ok _ =>
                match env.refetchResult with
                | .error e =>
                  (.submitFailed e, [.upload, .find, .update r.id p, .find])
                | .ok fresh =>
                  (.updatedOk r.id p (computeLastActionFromRecord fresh),
                   [.upload, .find, .update r.id p, .find])

/-- Rev2 submit-time component state. -/
structure SubmitState2 where
  espoBaseUrl : String
  espoApiKey : String
  attachmentUrl : String
  officeId : String
  employeeId : String
  type : ActionType
  lastAction : Option ActionType
  isTimeReady : Bool
  displayLat : Option ℚ
  displayLng : Option ℚ
  displayAddress : String
  selfie : Option SelfieFile
  dateStr : String
  timeStr : String
deriving Repr

/-- Responses of the remote services consumed by one Rev2 submit run. -/
structure SubmitEnv2 where
  uploadEnv : UploadEnv
  findResult : Except String (Option AttendanceRecord)
  createResult : Except String AttendanceRecord
  updateResult : Except String Unit
  refetchResult : Except String (Option AttendanceRecord)
deriving Repr

/-- Rev2 client-side validation, in source order: configuration, office,
employee, allowed action, time ready, selfie.  There is no location check: a
missing fix is later replaced by default coordinates instead of blocking. -/
def validate2 (s : SubmitState2) : Option String :=
  if s.espoBaseUrl = "" then some "ESPO base URL missing in .env"
  else if s.espoApiKey = "" then some "ESPO API key missing in .env"
  else if s.officeId = "" then some "Please select office."
  else if s.employeeId = "" then some "Please select employee."
  else if s.type ∉ allowedTypes s.officeId s.employeeId s.lastAction then
    some "This action is not allowed now."
  else if s.isTimeReady = false then some "Time is initializing. Try again."
  else if s.selfie = none then some "Please take selfie."
  else none

/-- The hard-coded default latitude used by Rev2 when no fix is available. -/
def defaultLat : ℚ := 23.0240815

/-- The hard-coded default longitude used by Rev2 when no fix is available. -/
def defaultLng : ℚ := 72.4720621

/-- The note stored by Rev2 when no fix is available. -/
def noLocationNote : String := "Location not available - using default coordinates"

/-- The Rev2 base payload: default coordinates and the no-location note when the
displayed fix is missing, the displayed fix and address otherwise; attachment
reference fields only when the attachment endpoint was used; the base64 data
always embedded. -/
def basePayload2 (s : SubmitState2) (up : Uploaded2) : Payload2 :=
  if s.displayLat = none ∨ s.displayLng = none then
    { name := s.employeeId, officeCode := s.officeId,
      employeeName := s.employeeId, attendanceDate := s.dateStr,
      officeLat := defaultLat, officeLng := defaultLng,
      daykey := jsToLower (s.dateStr ++ "__" ++ s.employeeId),
      notes := noLocationNote,
      attachIdField := if up.useAttachment then some (up.id, up.name) else none,
      selfieData := up.dataUrl, selfieDataName := up.name }
  else
    { name := s.employeeId, officeCode := s.officeId,
      employeeName := s.employeeId, attendanceDate := s.dateStr,
      officeLat := s.displayLat.getD 0, officeLng := s.displayLng.getD 0,
      daykey := jsToLower (s.dateStr ++ "__" ++ s.employeeId),
      notes := s.displayAddress,
      attachIdField := if up.useAttachment then some (up.id, up.name) else none,
      selfieData := up.dataUrl, selfieDataName := up.name }

/-- The Rev2 create-or-update tail of `onSubmit` (the source duplicates this
block verbatim inside the missing-location branch and the normal branch; the
model shares it): create only for checkin when no record exists, already-done
guard on the target timestamp field, otherwise update plus a re-fetch. -/
def submitCore2 (s : SubmitState2) (base : Payload2)
    (existing : Option AttendanceRecord) (env : SubmitEnv2) :
    SubmitOutcome Payload2 × List (NetCall Payload2) :=
  let dt := submittedDt s.dateStr s.timeStr
  match existing with
  | none =>
    if s.type ≠ .checkin then (.needCheckinFirst, [.upload, .find])
    else
      let p := { base with timeFieldSet := some (s.type, dt),
                           recordType := some "Attendance" }
      match env.createResult with
      | .error e => (.submitFailed e, [.upload, .find, .create p])
      | .ok created =>
        (.createdOk p
           (some ((computeLastActionFromRecord (some created)).getD .checkin)),
         [.upload, .find, .create p])
  | some r =>
    if truthy (getField r s.type) then (.alreadyDone, [.upload, .find])
    else
      let p := { base with timeFieldSet := some (s.type, dt) }
      match env.updateResult with
      | .error e => (.submitFailed e, [.upload, .find, .update r.id p])
      | .ok _ =>
        match env.refetchResult with
        | .error e => (.submitFailed e, [.upload, .find, .update r.id p, .find])
        | .ok fresh =>
          (.updatedOk r.id p (computeLastActionFromRecord fresh),
           [.upload, .find, .update r.id p, .find])

/-- Rev2 `onSubmit`: validation (no location check), then the hybrid selfie
upload (only a file-read failure aborts), then the record lookup, then the
shared create-or-update tail with the location-dependent base payload. -/
def onSubmit2 (s : SubmitState2) (env : SubmitEnv2) :
    SubmitOutcome Payload2 × List (NetCall Payload2) :=
  match validate2 s with
  | some m => (.blocked m, [])
  | none =>
    match s.selfie with
    | none => (.blocked "Please take selfie.", [])
    | some f =>
      match espoUploadSelfie2 s.attachmentUrl f env.uploadEnv with
      | .error e => (.submitFailed e, [.upload])
      | .ok up =>
        match env.findResult with
        | .error e => (.submitFailed e, [.upload, .find])
        | .ok existing => submitCore2 s (basePayload2 s up) existing env

/-! ## Helper lemmas -/

lemma submittedDt_ne_empty (a b : String) : submittedDt a b ≠ "" := by
  intro h
  have hd := congrArg String.data h
  simp [submittedDt, String.data_append] at hd

lemma truthy_getField_setField (r : AttendanceRecord) (a : ActionType) (v : String)
    (hv : v ≠ "") : truthy (getField (setField r a v) a) = true := by
  cases a <;> simp [getField, setField, truthy, hv]

/-! ## Claims -/

/-- C6 (confirmed): the attendance state is a pure function of the four optional
timestamp fields of the day record, computed with the fixed precedence checkOut
present, else lunchEnd present, else lunchStart present, else checkIn present,
else NotStarted: `computeLastActionFromRecord` agrees with the spec-worded
derivation `specStateOfRecord` on every record (so exactly one state holds), and
its result depends only on the four timestamp fields. -/
theorem C6_state_pure_function_of_fields :
    (∀ rec : Option AttendanceRecord,
       stateOfLastAction (computeLastActionFromRecord rec) = specStateOfRecord rec)
    ∧ (∀ r1 r2 : AttendanceRecord,
        r1.checkInAt = r2.checkInAt → r1.lunchOutAt = r2.lunchOutAt →
        r1.lunchInAt = r2.lunchInAt → r1.checkOutAt = r2.checkOutAt →
        computeLastActionFromRecord (some r1) = computeLastActionFromRecord (some r2)) := by
  constructor
  · intro rec
    cases rec with
    | none => rfl
    | some r =>
      simp only [computeLastActionFromRecord, specStateOfRecord]
      split_ifs <;> rfl
  · intro r1 r2 h1 h2 h3 h4
    rw [compute_some_eq, compute_some_eq, h1, h2, h3, h4]

/-- Witness for C6 at concrete records differing only in the id field. -/
theorem C6_state_pure_function_of_fields_witness :
    stateOfLastAction
        (computeLastActionFromRecord (some { id := "r1", checkInAt := some "2024-01-01 09:00:00" })) =
      specStateOfRecord (some { id := "r1", checkInAt := some "2024-01-01 09:00:00" })
    ∧ computeLastActionFromRecord (some { id := "r1", checkInAt := some "2024-01-01 09:00:00" }) =
        computeLastActionFromRecord (some { id := "r2", checkInAt := some "2024-01-01 09:00:00" }) :=
  ⟨C6_state_pure_function_of_fields.1 _,
   C6_state_pure_function_of_fields.2
     { id := "r1", checkInAt := some "2024-01-01 09:00:00" }
     { id := "r2", checkInAt := some "2024-01-01 09:00:00" } rfl rfl rfl rfl⟩

/-- C5 (confirmed): with an office and an employee selected, `allowedTypes`
returns exactly the table of spec section 4.4 (NotStarted gives checkin only;
CheckedIn gives lunchStart and checkout; OnLunch gives lunchEnd and checkout;
LunchDone gives checkout; Completed gives nothing); checkout is allowed in each
of the three in-progress states; along any legal run of a day no action is ever
performed twice; and a selected action that is not allowed is replaced by the
first allowed action, defaulting to checkin. -/
theorem C5_allowed_actions_table (o e : String) (ho : o ≠ "") (he : e ≠ "") :
    allowedTypes o e none = [.checkin]
    ∧ allowedTypes o e (some .checkin) = [.lunchStart, .checkout]
    ∧ allowedTypes o e (some .lunchStart) = [.lunchEnd, .checkout]
    ∧ allowedTypes o e (some .lunchEnd) = [.checkout]
    ∧ allowedTypes o e (some .checkout) = []
    ∧ (∀ la : Option ActionType,
        la = some .checkin ∨ la = some .lunchStart ∨ la = some .lunchEnd →
        ActionType.checkout ∈ allowedTypes o e la)
    ∧ (∀ (r r2 : Option AttendanceRecord) (acts : List ActionType),
        LegalRun o e r acts r2 → acts.Nodup)
    ∧ (∀ (la : Option ActionType) (ty : ActionType),
        ty ∉ allowedTypes o e la →
        reselectType o e (allowedTypes o e la) ty = (allowedTypes o e la).headD .checkin
        ∧ (allowedTypes o e la = [] →
            reselectType o e (allowedTypes o e la) ty = .checkin)) := by
  have hgate : ¬(o = "" ∨ e = "") := by
    rintro (h | h) <;> [exact ho h; exact he h]
  refine ⟨?_, ?_, ?_, ?_, ?_, ?_, ?_, ?_⟩
  · simp [allowedTypes, hgate]
  · simp [allowedTypes, hgate]
  · simp [allowedTypes, hgate]
  · simp [allowedTypes, hgate]
  · simp [allowedTypes, hgate]
  · rintro la (h | h | h) <;> subst h <;> simp [allowedTypes, hgate]
  · intro r r2 acts hrun
    exact (legalRun_nodup_aux hrun).1
  · intro la ty hty
    refine ⟨?_, ?_⟩
    · simp [reselectType, hgate, hty]
    · intro hempty
      simp [reselectType, hgate, hty, hempty]

/-- Witness for C5 at a concrete office and employee. -/
theorem C5_allowed_actions_table_witness :
    ("HQ" : String) ≠ "" ∧ ("alice" : String) ≠ "" ∧
      allowedTypes "HQ" "alice" (some .checkin) = [.lunchStart, .checkout] :=
  ⟨by decide, by decide,
   (C5_allowed_actions_table "HQ" "alice" (by decide) (by decide)).2.1⟩

/-- C7 (confirmed): once the location is frozen (office selected), any number of
subsequent live position updates leaves the frozen snapshot (and indeed the
whole tracker state) unchanged; unfreezing by deselecting the office and then
re-freezing latches the then-current live fix into the frozen snapshot. -/
theorem C7_freeze_correctness (s : LocState)
    (ups : List (ℚ × ℚ × Option String)) (hfrozen : s.isLocationFrozen = true)
    (la ln : ℚ) (geocoded : Option String) :
    applyLiveUpdates s ups = s
    ∧ (freezeLocationNow (liveUpdate (unfreezeLocation s) la ln geocoded) none).frozenLat
        = some la
    ∧ (freezeLocationNow (liveUpdate (unfreezeLocation s) la ln geocoded) none).frozenLng
        = some ln
    ∧ (freezeLocationNow (liveUpdate (unfreezeLocation s) la ln geocoded) none).frozenAddress
        = geocoded.getD ""
    ∧ (freezeLocationNow (liveUpdate (unfreezeLocation s) la ln geocoded) none).isLocationFrozen
        = true := by
  refine ⟨?_, ?_, ?_, ?_, ?_⟩
  · induction ups with
    | nil => rfl
    | cons u rest ih =>
      have hstep : liveUpdate s u.1 u.2.1 u.2.2 = s := by
        simp [liveUpdate, hfrozen]
      simpa [applyLiveUpdates, hstep] using ih
  all_goals
    simp [freezeLocationNow, liveUpdate, unfreezeLocation]

/-- Witness for C7 at a concrete frozen state and update sequence. -/
theorem C7_freeze_correctness_witness :
    ({ lat := some 1, lng := some 2, address := "x", isLocationFrozen := true,
       frozenLat := some 3, frozenLng := some 4,
       frozenAddress := "f" : LocState }).isLocationFrozen = true
    ∧ applyLiveUpdates
        { lat := some 1, lng := some 2, address := "x", isLocationFrozen := true,
          frozenLat := some 3, frozenLng := some 4, frozenAddress := "f" }
        [(10, 20, some "a"), (11, 21, none)] =
      { lat := some 1, lng := some 2, address := "x", isLocationFrozen := true,
        frozenLat := some 3, frozenLng := some 4, frozenAddress := "f" } :=
  ⟨rfl,
   (C7_freeze_correctness
      { lat := some 1, lng := some 2, address := "x", isLocationFrozen := true,
        frozenLat := some 3, frozenLng := some 4, frozenAddress := "f" }
      [(10, 20, some "a"), (11, 21, none)] rfl 10 20 (some "a")).1⟩

/-- C8 (confirmed): for reverse-geocode requests issued for fixes F1 then F2
with F2 issued strictly later (hence, ids being the issue instants of a
monotone millisecond clock, with a strictly larger request id), if the response
for F1 arrives after the response for F2 then the displayed address is the
result for F2, never the one for F1: a response is applied only when its id is
still the latest issued one. -/
theorem C8_geocode_race (s : GeoState) (t1 t2 : Nat) (a1 a2 : String)
    (hlt : t1 < t2) :
    (geoRespond (geoRespond (geoIssue (geoIssue s t1) t2) t2 (some a2) false)
        t1 (some a1) false).address = a2 := by
  have hne : t2 ≠ t1 := Nat.ne_of_gt hlt
  simp [geoIssue, geoRespond, hne]

/-- Witness for C8 at concrete request ids and addresses. -/
theorem C8_geocode_race_witness :
    (1000 : Nat) < 1001
    ∧ (geoRespond (geoRespond (geoIssue (geoIssue ⟨0, ""⟩ 1000) 1001) 1001
          (some "addr2") false) 1000 (some "addr1") false).address = "addr2" :=
  ⟨by decide, C8_geocode_race ⟨0, ""⟩ 1000 1001 "addr1" "addr2" (by decide)⟩

/-- C4 (confirmed): in both revisions, whenever the re-fetched day record
already has the target timestamp field populated, the submission is rejected
with the already-done outcome and no create or update call is made (the network
trace stops at the upload and the lookup), so the record is left unchanged;
moreover, after a first successful update of an action, re-submitting the same
action against the re-fetched (now populated) record is rejected the second
time. -/
theorem C4_already_done_idempotency :
    (∀ (s : SubmitState1) (env : SubmitEnv1) (f : SelfieFile) (up : Uploaded1)
       (r : AttendanceRecord),
       validate1 s = none → s.selfie = some f →
       espoUploadSelfie1 s.attachmentUrl f env.uploadEnv = .ok up →
       env.findResult = .ok (some r) →
       truthy (getField r s.type) = true →
       onSubmit1 s env = (.alreadyDone, [.upload, .find]))
    ∧ (∀ (s : SubmitState2) (env : SubmitEnv2) (f : SelfieFile) (up : Uploaded2)
        (r : AttendanceRecord),
        validate2 s = none → s.selfie = some f →
        espoUploadSelfie2 s.attachmentUrl f env.uploadEnv = .ok up →
        env.findResult = .ok (some r) →
        truthy (getField r s.type) = true →
        onSubmit2 s env = (.alreadyDone, [.upload, .find]))
    ∧ (∀ (s : SubmitState2) (env envB : SubmitEnv2) (f : SelfieFile)
        (up upB : Uploaded2) (r : AttendanceRecord)
        (fresh : Option AttendanceRecord),
        validate2 s = none → s.selfie = some f →
        espoUploadSelfie2 s.attachmentUrl f env.uploadEnv = .ok up →
        env.findResult = .ok (some r) →
        truthy (getField r s.type) = false →
        env.updateResult = .ok () →
        env.refetchResult = .ok fresh →
        espoUploadSelfie2 s.attachmentUrl f envB.uploadEnv = .ok upB →
        envB.findResult =
          .ok (some (setField r s.type (submittedDt s.dateStr s.timeStr))) →
        onSubmit2 s env =
          (.updatedOk r.id
             ({ basePayload2 s up with
                 timeFieldSet := some (s.type, submittedDt s.dateStr s.timeStr) })
             (computeLastActionFromRecord fresh),
           [.upload, .find,
            .update r.id
              ({ basePayload2 s up with
                  timeFieldSet := some (s.type, submittedDt s.dateStr s.timeStr) }),
            .find])
        ∧ onSubmit2 s envB = (.alreadyDone, [.upload, .find])) := by
  refine ⟨?_, ?_, ?_⟩
  · intro s env f up r hv hf hup hfind hguard
    simp [onSubmit1, hv, hf, hup, hfind, hguard]
  · intro s env f up r hv hf hup hfind hguard
    simp [onSubmit2, hv, hf, hup, hfind, submitCore2, hguard]
  · intro s env envB f up upB r fresh hv hf hup hfind hguard hupd hre hupB hfindB
    constructor
    · simp [onSubmit2, hv, hf, hup, hfind, submitCore2, hguard, hupd, hre]
    · have hpop :
          truthy (getField (setField r s.type (submittedDt s.dateStr s.timeStr))
            s.type) = true :=
        truthy_getField_setField r s.type _ (submittedDt_ne_empty _ _)
      simp [onSubmit2, hv, hf, hupB, hfindB, submitCore2, hpop]

/-! ## Concrete fixtures used by witnesses and counterexamples -/

/-- A concrete captured selfie. -/
def sampleSelfie : SelfieFile := ⟨"selfie.jpg", "image/jpeg"⟩

/-- A concrete upload environment where the file read and the attachment
endpoint both succeed. -/
def sampleUploadEnv : UploadEnv :=
  ⟨.ok "data:image/jpeg;base64,AAAA", .ok ("att1", "selfie.jpg"), 1700000000000⟩

/-- The upload result produced by `sampleUploadEnv` in Rev2. -/
def sampleUploaded2 : Uploaded2 :=
  ⟨"att1", "selfie.jpg", "data:image/jpeg;base64,AAAA", true⟩

/-- A concrete Rev2 submit state: checkout selected after checkin, everything
validated, a live fix present. -/
def sampleState2 : SubmitState2 :=
  { espoBaseUrl := "https://espo.example.com/api/v1/CAttendance",
    espoApiKey := "key1", attachmentUrl := "https://espo.example.com/api/v1/Attachment",
    officeId := "HQ", employeeId := "alice", type := .checkout,
    lastAction := some .checkin, isTimeReady := true,
    displayLat := some 10, displayLng := some 20, displayAddress := "Some Street 1",
    selfie := some sampleSelfie, dateStr := "2024-01-01", timeStr := "18:00:00" }

/-- A day record whose checkOutAt is already populated. -/
def doneRec : AttendanceRecord :=
  { id := "rec1", checkInAt := some "2024-01-01 09:00:00",
    checkOutAt := some "2024-01-01 17:00:00" }

/-- A Rev2 environment whose lookup returns `doneRec`. -/
def sampleEnvDone : SubmitEnv2 :=
  { uploadEnv := sampleUploadEnv, findResult := .ok (some doneRec),
    createResult := .error "unused", updateResult := .error "unused",
    refetchResult := .error "unused" }

/-- Witness for C4: a concrete submission whose target field is already
populated is rejected as already-done after only the upload and lookup calls. -/
theorem C4_already_done_idempotency_witness :
    validate2 sampleState2 = none
    ∧ truthy (getField doneRec sampleState2.type) = true
    ∧ onSubmit2 sampleState2 sampleEnvDone = (.alreadyDone, [.upload, .find]) :=
  ⟨rfl, rfl,
   C4_already_done_idempotency.2.1 sampleState2 sampleEnvDone sampleSelfie
     sampleUploaded2 doneRec rfl rfl rfl rfl rfl⟩

/-- C10 (confirmed): in the latest revision, a submission with no displayed
location fix (lat or lng null) is not rejected for that reason: the base
payload carries the hard-coded default coordinates officeLat 23.0240815 and
officeLng 72.4720621 together with the note that location was not available,
and the record is still created (checkin with no existing record) or updated
(existing record, target field empty). -/
theorem C10_default_coordinates (s : SubmitState2) (env : SubmitEnv2)
    (f : SelfieFile) (up : Uploaded2)
    (hv : validate2 s = none) (hf : s.selfie = some f)
    (hup : espoUploadSelfie2 s.attachmentUrl f env.uploadEnv = .ok up)
    (hloc : s.displayLat = none ∨ s.displayLng = none) :
    ((basePayload2 s up).officeLat = 23.0240815
     ∧ (basePayload2 s up).officeLng = 72.4720621
     ∧ (basePayload2 s up).notes = "Location not available - using default coordinates")
    ∧ (∀ created : AttendanceRecord,
        env.findResult = .ok none → s.type = .checkin →
        env.createResult = .ok created →
        onSubmit2 s env =
          (.createdOk
             ({ basePayload2 s up with
                 timeFieldSet := some (s.type, submittedDt s.dateStr s.timeStr),
                 recordType := some "Attendance" })
             (some ((computeLastActionFromRecord (some created)).getD .checkin)),
           [.upload, .find,
            .create ({ basePayload2 s up with
                        timeFieldSet := some (s.type, submittedDt s.dateStr s.timeStr),
                        recordType := some "Attendance" })]))
    ∧ (∀ (r : AttendanceRecord) (fresh : Option AttendanceRecord),
        env.findResult = .ok (some r) → truthy (getField r s.type) = false →
        env.updateResult = .ok () → env.refetchResult = .ok fresh →
        onSubmit2 s env =
          (.updatedOk r.id
             ({ basePayload2 s up with
                 timeFieldSet := some (s.type, submittedDt s.dateStr s.timeStr) })
             (computeLastActionFromRecord fresh),
           [.upload, .find,
            .update r.id
              ({ basePayload2 s up with
                  timeFieldSet := some (s.type, submittedDt s.dateStr s.timeStr) }),
            .find])) := by
  refine ⟨?_, ?_, ?_⟩
  · rcases hloc with h | h <;> simp [basePayload2, h, defaultLat, defaultLng, noLocationNote]
  · intro created hfind hty hcreate
    simp [onSubmit2, hv, hf, hup, hfind, submitCore2, hty, hcreate]
  · intro r fresh hfind hguard hupd hre
    simp [onSubmit2, hv, hf, hup, hfind, submitCore2, hguard, hupd, hre]

/-- A concrete Rev2 submit state with no location fix: checkin as first action
of the day, everything else validated. -/
def sampleState2NoLoc : SubmitState2 :=
  { espoBaseUrl := "https://espo.example.com/api/v1/CAttendance",
    espoApiKey := "key1", attachmentUrl := "https://espo.example.com/api/v1/Attachment",
    officeId := "HQ", employeeId := "alice", type := .checkin,
    lastAction := none, isTimeReady := true,
    displayLat := none, displayLng := none, displayAddress := "",
    selfie := some sampleSelfie, dateStr := "2024-01-01", timeStr := "09:00:00" }

/-- The record returned by the create call in the C10 witness environment. -/
def createdRec : AttendanceRecord :=
  { id := "rec9", checkInAt := some "2024-01-01 09:00:00" }

/-- A Rev2 environment for a first-of-day checkin: the lookup finds nothing and
the create call succeeds. -/
def sampleEnvCreate : SubmitEnv2 :=
  { uploadEnv := sampleUploadEnv, findResult := .ok none,
    createResult := .ok createdRec, updateResult := .error "unused",
    refetchResult := .error "unused" }

/-- Witness for C10: a concrete no-location checkin goes through and its
payload carries the default coordinates and the no-location note. -/
theorem C10_default_coordinates_witness :
    validate2 sampleState2NoLoc = none
    ∧ sampleState2NoLoc.displayLat = none
    ∧ (basePayload2 sampleState2NoLoc sampleUploaded2).officeLat = 23.0240815
      ∧ (basePayload2 sampleState2NoLoc sampleUploaded2).officeLng = 72.4720621
      ∧ (basePayload2 sampleState2NoLoc sampleUploaded2).notes =
          "Location not available - using default coordinates" :=
  ⟨rfl, rfl,
   (C10_default_coordinates sampleState2NoLoc sampleEnvCreate sampleSelfie
      sampleUploaded2 rfl rfl rfl (Or.inl rfl)).1⟩

lemma findSome_id_eq_none {l : List (Option Int)} (h : ∀ x ∈ l, x = none) :
    l.findSome? (fun x => x) = none := by
  induction l with
  | nil => rfl
  | cons a rest ih =>
    have ha := h a (List.mem_cons_self a rest)
    subst ha
    simpa [List.findSome?] using ih (fun x hx => h x (List.mem_cons_of_mem _ hx))

/-- Counterexample to C9 as stated: in the first revision, a clock that is
Ready with a previously synced value, after a periodic re-sync in which all
sources fail (three rounds through the three providers), is left NOT Ready:
`syncKolkataTime` clears `isTimeReady` on entry and leaves it false on total
failure, although the TimeSync pair itself is retained. -/
theorem C9_ready_regression_counterexample :
    (syncKolkataTime1 ⟨⟨some 1700000000000, some 1000⟩, true⟩
        [none, none, none, none, none, none, none, none, none] 2000).isTimeReady = false
    ∧ (syncKolkataTime1 ⟨⟨some 1700000000000, some 1000⟩, true⟩
        [none, none, none, none, none, none, none, none, none] 2000).timeSync
        = ⟨some 1700000000000, some 1000⟩ :=
  ⟨rfl, rfl⟩

/-- C9 amended (the claim holds for the latest revision; in the first revision
the synced value is retained but the Ready flag is cleared): in Rev2 a re-sync
that fails on all sources leaves the clock state completely unchanged (Ready
stays Ready with its previous value) and a successful sync atomically installs
the new pair; in Rev1 a failed re-sync retains the previously synced TimeSync
pair (so trusted now still works) but leaves isTimeReady false until a future
successful sync; in neither revision does a sync ever clear a previously synced
value (no regression to Unsynced). -/
theorem C9_clock_state_machine_amended :
    (∀ (c : ClockState2) (results : List (Option Int)) (p : Int),
       (∀ x ∈ results, x = none) → syncKolkataTimeFast2 c results p = (c, none))
    ∧ (∀ (c : ClockState2) (results : List (Option Int)) (p ms : Int),
        results.findSome? (fun x => x) = some ms →
        syncKolkataTimeFast2 c results p = (⟨⟨some ms, some p, true⟩, true⟩, some ms))
    ∧ (∀ (c : ClockState1) (results : List (Option Int)) (p : Int),
        (∀ x ∈ results, x = none) →
        (syncKolkataTime1 c results p).timeSync = c.timeSync
        ∧ (syncKolkataTime1 c results p).isTimeReady = false)
    ∧ (∀ (c : ClockState1) (results : List (Option Int)) (p : Int),
        c.timeSync.serverEpochMs ≠ none →
        (syncKolkataTime1 c results p).timeSync.serverEpochMs ≠ none)
    ∧ (∀ (c : ClockState2) (results : List (Option Int)) (p : Int),
        c.timeSync.serverEpochMs ≠ none →
        ((syncKolkataTimeFast2 c results p).1).timeSync.serverEpochMs ≠ none) := by
  refine ⟨?_, ?_, ?_, ?_, ?_⟩
  · intro c results p h
    simp [syncKolkataTimeFast2, findSome_id_eq_none h]
  · intro c results p ms h
    simp [syncKolkataTimeFast2, h]
  · intro c results p h
    constructor <;> simp [syncKolkataTime1, findSome_id_eq_none h]
  · intro c results p h
    unfold syncKolkataTime1
    cases hfs : results.findSome? (fun x => x)
    · simpa using h
    · simp
  · intro c results p h
    unfold syncKolkataTimeFast2
    cases hfs : results.findSome? (fun x => x)
    · simpa using h
    · simp

/-- Witness for C9 amended: a concrete Ready Rev2 clock is unchanged by a
failed re-sync. -/
theorem C9_clock_state_machine_amended_witness :
    (∀ x ∈ ([none, none, none] : List (Option Int)), x = none)
    ∧ syncKolkataTimeFast2 ⟨⟨some 1700000000000, some 1000, true⟩, true⟩
        [none, none, none] 2000
        = (⟨⟨some 1700000000000, some 1000, true⟩, true⟩, none) :=
  ⟨by decide,
   C9_clock_state_machine_amended.1 ⟨⟨some 1700000000000, some 1000, true⟩, true⟩
     [none, none, none] 2000 (by decide)⟩

/-- An upload environment whose attachment endpoint call fails. -/
def failAttachUploadEnv : UploadEnv :=
  ⟨.ok "data:image/jpeg;base64,AAAA", .error "HTTP 500", 1700000000000⟩

/-- The inline-base64 fallback result Rev2 produces for `failAttachUploadEnv`. -/
def fallbackUploaded2 : Uploaded2 :=
  ⟨"selfie_1700000000000", "selfie.jpg", "data:image/jpeg;base64,AAAA", false⟩

/-- A concrete Rev2 submit state for a first-of-day checkin with a live fix. -/
def sampleState2Checkin : SubmitState2 :=
  { espoBaseUrl := "https://espo.example.com/api/v1/CAttendance",
    espoApiKey := "key1", attachmentUrl := "https://espo.example.com/api/v1/Attachment",
    officeId := "HQ", employeeId := "alice", type := .checkin,
    lastAction := none, isTimeReady := true,
    displayLat := some 10, displayLng := some 20, displayAddress := "Some Street 1",
    selfie := some sampleSelfie, dateStr := "2024-01-01", timeStr := "09:00:00" }

/-- A Rev2 environment where the attachment upload fails but lookup and create
succeed. -/
def failAttachEnvCreate : SubmitEnv2 :=
  { uploadEnv := failAttachUploadEnv, findResult := .ok none,
    createResult := .ok createdRec, updateResult := .error "unused",
    refetchResult := .error "unused" }

/-- Counterexample to C3 as stated: in the latest revision a failed attachment
upload does not abort the submission; `espoUploadSelfie` falls back to an
inline base64 result and the record is still created, with no attachment
reference and the base64 image embedded instead. -/
theorem C3_upload_failure_counterexample :
    failAttachUploadEnv.attachResponse = .error "HTTP 500"
    ∧ espoUploadSelfie2 sampleState2Checkin.attachmentUrl sampleSelfie
        failAttachUploadEnv = .ok fallbackUploaded2
    ∧ (basePayload2 sampleState2Checkin fallbackUploaded2).attachIdField = none
    ∧ (basePayload2 sampleState2Checkin fallbackUploaded2).selfieData
        = "data:image/jpeg;base64,AAAA"
    ∧ onSubmit2 sampleState2Checkin failAttachEnvCreate =
        (.createdOk
           ({ basePayload2 sampleState2Checkin fallbackUploaded2 with
               timeFieldSet := some (ActionType.checkin, "2024-01-01 09:00:00"),
               recordType := some "Attendance" })
           (some .checkin),
         [.upload, .find,
          .create ({ basePayload2 sampleState2Checkin fallbackUploaded2 with
                      timeFieldSet := some (ActionType.checkin, "2024-01-01 09:00:00"),
                      recordType := some "Attendance" })]) :=
  ⟨rfl, rfl, rfl, rfl, rfl⟩

/-- C3 amended (upload-failure abort holds in the first revision; in the latest
revision only a file-read failure aborts, a failed attachment upload falls back
to embedding the base64 image and the mutation proceeds; in both revisions the
upload step precedes any create or update call): Rev1 aborts with no record
mutation on any upload error; Rev2 aborts on a file-read error; Rev2 returns
the inline fallback on an attachment-endpoint error; and in both revisions
every network trace is empty or starts with the upload call. -/
theorem C3_upload_first_amended :
    (∀ (s : SubmitState1) (env : SubmitEnv1) (f : SelfieFile) (e : String),
       validate1 s = none → s.selfie = some f →
       espoUploadSelfie1 s.attachmentUrl f env.uploadEnv = .error e →
       onSubmit1 s env = (.submitFailed e, [.upload]))
    ∧ (∀ (s : SubmitState2) (env : SubmitEnv2) (f : SelfieFile) (e : String),
        validate2 s = none → s.selfie = some f →
        env.uploadEnv.fileRead = .error e →
        onSubmit2 s env = (.submitFailed e, [.upload]))
    ∧ (∀ (f : SelfieFile) (envU : UploadEnv) (url d err : String),
        envU.fileRead = .ok d → envU.attachResponse = .error err → url ≠ "" →
        espoUploadSelfie2 url f envU =
          .ok ⟨"selfie_" ++ toString envU.nowMs,
               if f.name = "" then "selfie.jpg" else f.name, d, false⟩)
    ∧ (∀ (s : SubmitState1) (env : SubmitEnv1),
        (onSubmit1 s env).2 = [] ∨ (onSubmit1 s env).2.head? = some .upload)
    ∧ (∀ (s : SubmitState2) (env : SubmitEnv2),
        (onSubmit2 s env).2 = [] ∨ (onSubmit2 s env).2.head? = some .upload) := by
  refine ⟨?_, ?_, ?_, ?_, ?_⟩
  · intro s env f e hv hf hup
    simp [onSubmit1, hv, hf, hup]
  · intro s env f e hv hf hfr
    simp [onSubmit2, hv, hf, espoUploadSelfie2, hfr]
  · intro f envU url d err hfr hatt hurl
    simp [espoUploadSelfie2, hfr, hatt, hurl]
  · intro s env
    unfold onSubmit1
    repeat' split
    all_goals simp
  · intro s env
    unfold onSubmit2 submitCore2
    repeat' split
    all_goals simp

/-- A concrete Rev1 submit state: checkout selected after checkin, everything
validated, a live fix present. -/
def sampleState1 : SubmitState1 :=
  { espoBaseUrl := "https://espo.example.com/api/v1/CAttendance",
    espoApiKey := "key1", attachmentUrl := "https://espo.example.com/api/v1/Attachment",
    officeId := "HQ", employeeId := "alice", type := .checkout,
    lastAction := some .checkin, isTimeReady := true,
    displayLat := some 10, displayLng := some 20, displayAddress := "Some Street 1",
    selfie := some sampleSelfie, dateStr := "2024-01-01", timeStr := "18:00:00" }

/-- A Rev1 environment whose attachment upload fails. -/
def failAttachEnv1 : SubmitEnv1 :=
  { uploadEnv := failAttachUploadEnv, findResult := .ok (some doneRec),
    createResult := .error "unused", updateResult := .error "unused",
    refetchResult := .error "unused" }

/-- Witness for C3 amended: a concrete Rev1 submission whose upload fails stops
after the upload call with the error surfaced, touching no record. -/
theorem C3_upload_first_amended_witness :
    validate1 sampleState1 = none
    ∧ espoUploadSelfie1 sampleState1.attachmentUrl sampleSelfie failAttachUploadEnv
        = .error "HTTP 500"
    ∧ onSubmit1 sampleState1 failAttachEnv1 = (.submitFailed "HTTP 500", [.upload]) :=
  ⟨rfl, rfl,
   C3_upload_first_amended.1 sampleState1 failAttachEnv1 sampleSelfie "HTTP 500"
     rfl rfl rfl⟩

/-- Counterexample to C2 as stated: in the latest revision the location-missing
precondition is not validated at all: a submission with no displayed fix passes
validation, is never blocked with a location message, and proceeds to the
upload, lookup and create network calls (with default coordinates). -/
theorem C2_validation_counterexample :
    sampleState2NoLoc.displayLat = none
    ∧ sampleState2NoLoc.displayLng = none
    ∧ validate2 sampleState2NoLoc = none
    ∧ onSubmit2 sampleState2NoLoc sampleEnvCreate =
        (.createdOk
           ({ basePayload2 sampleState2NoLoc sampleUploaded2 with
               timeFieldSet := some (ActionType.checkin, "2024-01-01 09:00:00"),
               recordType := some "Attendance" })
           (some .checkin),
         [.upload, .find,
          .create ({ basePayload2 sampleState2NoLoc sampleUploaded2 with
                      timeFieldSet := some (ActionType.checkin, "2024-01-01 09:00:00"),
                      recordType := some "Attendance" })]) :=
  ⟨rfl, rfl, rfl, rfl⟩

/-- C2 amended (the claim holds for the first revision; in the latest revision
the location-missing check is dropped, missing location being substituted with
default coordinates, and the remaining order is office, employee,
action-not-allowed, time-not-ready, selfie-missing): in both revisions a
validation failure blocks with its specific message and makes no network call;
the first revision checks its preconditions, after the configuration checks, in
the fixed priority order office, employee, action-not-allowed, time-not-ready,
location-missing, selfie-missing; the latest revision checks office, employee,
action-not-allowed, time-not-ready, selfie-missing and passes validation even
with no location fix. -/
theorem C2_validation_order_amended :
    (∀ (s : SubmitState1) (env : SubmitEnv1) (m : String),
       validate1 s = some m → onSubmit1 s env = (.blocked m, []))
    ∧ (∀ (s : SubmitState2) (env : SubmitEnv2) (m : String),
        validate2 s = some m → onSubmit2 s env = (.blocked m, []))
    ∧ (∀ s : SubmitState1,
        s.espoBaseUrl ≠ "" → s.espoApiKey ≠ "" →
        (s.officeId = "" → validate1 s = some "Please select office.")
        ∧ (s.officeId ≠ "" → s.employeeId = "" →
            validate1 s = some "Please select employee.")
        ∧ (s.officeId ≠ "" → s.employeeId ≠ "" →
            s.type ∉ allowedTypes s.officeId s.employeeId s.lastAction →
            validate1 s = some "This action is not allowed now.")
        ∧ (s.officeId ≠ "" → s.employeeId ≠ "" →
            s.type ∈ allowedTypes s.officeId s.employeeId s.lastAction →
            s.isTimeReady = false →
            validate1 s = some "Kolkata time is syncing. Wait 1–2 seconds.")
        ∧ (s.officeId ≠ "" → s.employeeId ≠ "" →
            s.type ∈ allowedTypes s.officeId s.employeeId s.lastAction →
            s.isTimeReady = true →
            (s.displayLat = none ∨ s.displayLng = none) →
            validate1 s = some "Location not available.")
        ∧ (s.officeId ≠ "" → s.employeeId ≠ "" →
            s.type ∈ allowedTypes s.officeId s.employeeId s.lastAction →
            s.isTimeReady = true →
            s.displayLat ≠ none → s.displayLng ≠ none →
            s.selfie = none →
            validate1 s = some "Please take selfie.")
        ∧ (s.officeId ≠ "" → s.employeeId ≠ "" →
            s.type ∈ allowedTypes s.officeId s.employeeId s.lastAction →
            s.isTimeReady = true →
            s.displayLat ≠ none → s.displayLng ≠ none →
            s.selfie ≠ none →
            validate1 s = none))
    ∧ (∀ s : SubmitState2,
        s.espoBaseUrl ≠ "" → s.espoApiKey ≠ "" →
        (s.officeId = "" → validate2 s = some "Please select office.")
        ∧ (s.officeId ≠ "" → s.employeeId = "" →
            validate2 s = some "Please select employee.")
        ∧ (s.officeId ≠ "" → s.employeeId ≠ "" →
            s.type ∉ allowedTypes s.officeId s.employeeId s.lastAction →
            validate2 s = some "This action is not allowed now.")
        ∧ (s.officeId ≠ "" → s.employeeId ≠ "" →
            s.type ∈ allowedTypes s.officeId s.employeeId s.lastAction →
            s.isTimeReady = false →
            validate2 s = some "Time is initializing. Try again.")
        ∧ (s.officeId ≠ "" → s.employeeId ≠ "" →
            s.type ∈ allowedTypes s.officeId s.employeeId s.lastAction →
            s.isTimeReady = true →
            s.selfie = none →
            validate2 s = some "Please take selfie.")
        ∧ (s.officeId ≠ "" → s.employeeId ≠ "" →
            s.type ∈ allowedTypes s.officeId s.employeeId s.lastAction →
            s.isTimeReady = true →
            s.selfie ≠ none →
            validate2 s = none)) := by
  refine ⟨?_, ?_, ?_, ?_⟩
  · intro s env m hv
    simp [onSubmit1, hv]
  · intro s env m hv
    simp [onSubmit2, hv]
  · intro s hb hk
    refine ⟨?_, ?_, ?_, ?_, ?_, ?_, ?_⟩
    · intro h1; simp [validate1, hb, hk, h1]
    · intro h1 h2; simp [validate1, hb, hk, h1, h2]
    · intro h1 h2 h3; simp [validate1, hb, hk, h1, h2, h3]
    · intro h1 h2 h3 h4; simp [validate1, hb, hk, h1, h2, h3, h4]
    · intro h1 h2 h3 h4 h5; simp [validate1, hb, hk, h1, h2, h3, h4, h5]
    · intro h1 h2 h3 h4 h5a h5b h6
      simp [validate1, hb, hk, h1, h2, h3, h4, h5a, h5b, h6]
    · intro h1 h2 h3 h4 h5a h5b h6
      simp [validate1, hb, hk, h1, h2, h3, h4, h5a, h5b, h6]
  · intro s hb hk
    refine ⟨?_, ?_, ?_, ?_, ?_, ?_⟩
    · intro h1; simp [validate2, hb, hk, h1]
    · intro h1 h2; simp [validate2, hb, hk, h1, h2]
    · intro h1 h2 h3; simp [validate2, hb, hk, h1, h2, h3]
    · intro h1 h2 h3 h4; simp [validate2, hb, hk, h1, h2, h3, h4]
    · intro h1 h2 h3 h4 h5; simp [validate2, hb, hk, h1, h2, h3, h4, h5]
    · intro h1 h2 h3 h4 h5; simp [validate2, hb, hk, h1, h2, h3, h4, h5]

/-- Witness for C2 amended: a concrete Rev1 submission with no employee
selected is blocked with the employee message and makes no network call. -/
theorem C2_validation_order_amended_witness :
    validate1 { sampleState1 with employeeId := "" } = some "Please select employee."
    ∧ onSubmit1 { sampleState1 with employeeId := "" } failAttachEnv1
        = (.blocked "Please select employee.", []) :=
  ⟨rfl,
   C2_validation_order_amended.1 { sampleState1 with employeeId := "" }
     failAttachEnv1 "Please select employee." rfl⟩

/-- The Rev2 submit state reached at mount with no successful sync and no
cache: isTimeReady is already true and the frozen date and time strings are the
device-clock rendering produced by the mount effect at device epoch
1700000000000 ms. -/
def unsyncedMountState2 : SubmitState2 :=
  { espoBaseUrl := "https://espo.example.com/api/v1/CAttendance",
    espoApiKey := "key1", attachmentUrl := "https://espo.example.com/api/v1/Attachment",
    officeId := "HQ", employeeId := "alice", type := .checkin,
    lastAction := none, isTimeReady := true,
    displayLat := some 10, displayLng := some 20, displayAddress := "Some Street 1",
    selfie := some sampleSelfie, dateStr := "2023-11-15", timeStr := "03:43:20" }

/-- Counterexample to C1 as stated: in the latest revision, with the trusted
clock never synced and no cache, the mount effect marks time ready and renders
the device clock ("2023-11-15 03:43:20" IST for device epoch 1700000000000 ms)
even though trusted now is null; a submission in that state is not blocked with
a time message and the create call is made, its timestamp derived from the
device clock. -/
theorem C1_device_fallback_counterexample :
    (initTimeEffect2 none 1700000000000 0).isTimeReady = true
    ∧ getTrustedNow2 (initTimeEffect2 none 1700000000000 0).timeSync 5000 = none
    ∧ (initTimeEffect2 none 1700000000000 0).dateStr = "2023-11-15"
    ∧ (initTimeEffect2 none 1700000000000 0).timeStr = "03:43:20"
    ∧ istDateTimeParts 1700000000000 = ("2023-11-15", "03:43:20")
    ∧ onSubmit2 unsyncedMountState2 sampleEnvCreate =
        (.createdOk
           ({ basePayload2 unsyncedMountState2 sampleUploaded2 with
               timeFieldSet := some (ActionType.checkin, "2023-11-15 03:43:20"),
               recordType := some "Attendance" })
           (some .checkin),
         [.upload, .find,
          .create ({ basePayload2 unsyncedMountState2 sampleUploaded2 with
                      timeFieldSet := some (ActionType.checkin, "2023-11-15 03:43:20"),
                      recordType := some "Attendance" })]) :=
  ⟨rfl, rfl, rfl, rfl, rfl, rfl⟩

/-- C1 amended (the claim holds for the first revision; the latest revision
marks time ready at mount and falls back to the device clock): in both
revisions trusted now is null when never synced (and, in Rev2, when no cache
was restored); in Rev1 the clock renders placeholders when unsynced, a
submission with time not ready is blocked with the time-syncing message and no
network call, and a mount-time sync failing on all sources leaves the clock
unsynced and not ready; in Rev2 the mount effect marks time ready
unconditionally while leaving the pair null without a cache and rendering the
device clock, the tick keeps rendering the device clock while unsynced, a
failed re-sync never clears the ready flag, and any submission passing
validation immediately performs the upload network call. -/
theorem C1_trusted_time_amended :
    (∀ (ts : TimeSync1) (p : Int), ts.serverEpochMs = none → getTrustedNow1 ts p = none)
    ∧ (∀ (ts : TimeSync2) (p : Int), ts.serverEpochMs = none → getTrustedNow2 ts p = none)
    ∧ (∀ d p : Int,
        (initTimeEffect2 none d p).timeSync.serverEpochMs = none
        ∧ (initTimeEffect2 none d p).isTimeReady = true
        ∧ (initTimeEffect2 none d p).dateStr = (istDateTimeParts d).1
        ∧ (initTimeEffect2 none d p).timeStr = (istDateTimeParts d).2)
    ∧ (∀ (ts : TimeSync2) (p d : Int),
        getTrustedNow2 ts p = none → tick2 ts p d = istDateTimeParts d)
    ∧ (∀ (ts : TimeSync1) (p : Int),
        getTrustedNow1 ts p = none → tick1 ts p = ("--", "--"))
    ∧ (∀ (s : SubmitState1) (env : SubmitEnv1),
        s.espoBaseUrl ≠ "" → s.espoApiKey ≠ "" → s.officeId ≠ "" → s.employeeId ≠ "" →
        s.type ∈ allowedTypes s.officeId s.employeeId s.lastAction →
        s.isTimeReady = false →
        onSubmit1 s env = (.blocked "Kolkata time is syncing. Wait 1–2 seconds.", []))
    ∧ (∀ (results : List (Option Int)) (p : Int),
        (∀ x ∈ results, x = none) →
        syncKolkataTime1 initClock1 results p = initClock1)
    ∧ (∀ (c : ClockState2) (results : List (Option Int)) (p : Int),
        c.isTimeReady = true →
        ((syncKolkataTimeFast2 c results p).1).isTimeReady = true)
    ∧ (∀ (s : SubmitState2) (env : SubmitEnv2),
        validate2 s = none → (onSubmit2 s env).2.head? = some .upload) := by
  refine ⟨?_, ?_, ?_, ?_, ?_, ?_, ?_, ?_, ?_⟩
  · intro ts p h
    simp [getTrustedNow1, h]
  · intro ts p h
    simp [getTrustedNow2, h]
  · intro d p
    refine ⟨rfl, rfl, rfl, rfl⟩
  · intro ts p d h
    simp [tick2, h]
  · intro ts p h
    simp [tick1, h]
  · intro s env hb hk ho he hal ht
    have hv : validate1 s = some "Kolkata time is syncing. Wait 1–2 seconds." := by
      simp [validate1, hb, hk, ho, he, hal, ht]
    simp [onSubmit1, hv]
  · intro results p h
    simp [syncKolkataTime1, findSome_id_eq_none h, initClock1]
  · intro c results p h
    unfold syncKolkataTimeFast2
    cases results.findSome? (fun x => x) <;> simp [h]
  · intro s env hv
    have hsel : s.selfie ≠ none := by
      intro hn
      unfold validate2 at hv
      split_ifs at hv
    obtain ⟨f, hf⟩ := Option.ne_none_iff_exists'.mp hsel
    cases hup : espoUploadSelfie2 s.attachmentUrl f env.uploadEnv with
    | error e => simp [onSubmit2, hv, hf, hup]
    | ok up =>
      cases hfind : env.findResult with
      | error e => simp [onSubmit2, hv, hf, hup, hfind]
      | ok existing =>
        simp only [onSubmit2, hv, hf, hup, hfind, submitCore2]
        repeat' split
        all_goals simp

/-- Witness for C1 amended: at a concrete unsynced Rev2 TimeSync the trusted
now is null while the tick still renders the device clock. -/
theorem C1_trusted_time_amended_witness :
    (⟨none, none, false⟩ : TimeSync2).serverEpochMs = none
    ∧ getTrustedNow2 ⟨none, none, false⟩ 5000 = none
    ∧ tick2 ⟨none, none, false⟩ 5000 1700000000000 = istDateTimeParts 1700000000000 :=
  ⟨rfl, C1_trusted_time_amended.2.1 ⟨none, none, false⟩ 5000 rfl,
   C1_trusted_time_amended.2.2.2.1 ⟨none, none, false⟩ 5000 1700000000000 rfl⟩
